import Mathlib

/-!
Shallow embedding of the NextSight v2 zone-intersection / workflow core.

Conventions of the embedding:
* Python floats are modelled as exact rationals (`ℚ`); the numeric literals
  of the source (`0.6`, `0.3`, `0.7`, ...) are taken at their decimal value.
* Python dicts are modelled as insertion-ordered association lists with
  unique keys (CPython dicts iterate in insertion order); `del` is key
  removal, assignment is in-place update-or-append.
* Python sets of strings are modelled as duplicate-free lists of strings:
  membership and idempotent add are order-independent, and the one
  order-dependent operation (the capacity eviction, which rebuilds the set
  from an unspecified CPython enumeration order) is parameterized by an
  explicit eviction choice that theorems quantify over.
* `time.time()` is passed in explicitly as a rational `now` parameter.
* Fallible code paths (a Python `KeyError` on a plain `dict[...]` access)
  are modelled with `Option`: `none` is an escaped exception.
-/

namespace NextSight

/-! ## Association-list helpers (Python dict / set operations) -/

/-- Python `del d[k]`: remove the binding for `k` (keys are unique). -/
def eraseKey {α : Type} (l : List (String × α)) (k : String) : List (String × α) :=
  l.filter (fun kv => !(kv.1 == k))

/-- Python `d[k] = v`: update in place if the key exists, else append. -/
def dictInsert {α : Type} (l : List (String × α)) (k : String) (v : α) :
    List (String × α) :=
  if l.any (fun kv => kv.1 == k) then
    l.map (fun kv => if kv.1 == k then (k, v) else kv)
  else l ++ [(k, v)]

/-- Python `s.add(k)` on a set modelled as a duplicate-free list. -/
def addKey (l : List String) (k : String) : List String :=
  if k ∈ l then l else l ++ [k]

/-! ## Geometry primitives (`nextsight/utils/geometry.py`) -/

/-- Two-dimensional point with normalized coordinates. -/
structure Point where
  x : ℚ
  y : ℚ
deriving DecidableEq, Repr

/-- Axis-aligned rectangle with normalized coordinates. -/
structure Rectangle where
  x : ℚ
  y : ℚ
  width : ℚ
  height : ℚ
deriving DecidableEq, Repr

def Rectangle.left (r : Rectangle) : ℚ := r.x

def Rectangle.right (r : Rectangle) : ℚ := r.x + r.width

def Rectangle.top (r : Rectangle) : ℚ := r.y

def Rectangle.bottom (r : Rectangle) : ℚ := r.y + r.height

def Rectangle.area (r : Rectangle) : ℚ := r.width * r.height

/-- Source: `Rectangle.contains_point`: inclusive on all four edges. -/
def Rectangle.contains_point (r : Rectangle) (p : Point) : Bool :=
  decide (r.left ≤ p.x ∧ p.x ≤ r.right ∧ r.top ≤ p.y ∧ p.y ≤ r.bottom)

/-- Source: `Rectangle.intersects_rectangle`: separating-axis test. -/
def Rectangle.intersects_rectangle (r other : Rectangle) : Bool :=
  !(decide (r.right < other.left ∨ other.right < r.left ∨
            r.bottom < other.top ∨ other.bottom < r.top))

/-- Source: `Rectangle.intersection_area`: 0 when disjoint. -/
def Rectangle.intersection_area (r other : Rectangle) : ℚ :=
  if r.intersects_rectangle other then
    (min r.right other.right - max r.left other.left) *
      (min r.bottom other.bottom - max r.top other.top)
  else 0

/-! ## Hand landmark processor (`HandLandmarkProcessor`) -/

/-- Source: `PALM_LANDMARKS = [0, 1, 5, 9, 13, 17]`. -/
def PALM_LANDMARKS : List Nat := [0, 1, 5, 9, 13, 17]

/-- Source: `FINGERTIP_LANDMARKS = [4, 8, 12, 16, 20]`. -/
def FINGERTIP_LANDMARKS : List Nat := [4, 8, 12, 16, 20]

/-- Source: `get_hand_bounding_box`: `none` on `None`/empty input, else min/max box. -/
def get_hand_bounding_box : Option (List Point) → Option Rectangle
  | none => none
  | some [] => none
  | some (p :: rest) =>
    let min_x := rest.foldl (fun a q => min a q.x) p.x
    let max_x := rest.foldl (fun a q => max a q.x) p.x
    let min_y := rest.foldl (fun a q => min a q.y) p.y
    let max_y := rest.foldl (fun a q => max a q.y) p.y
    some ⟨min_x, min_y, max_x - min_x, max_y - min_y⟩

/-- Source: `get_palm_center`: mean of the palm landmarks present; `none` on `None`
input or fewer points than `len(PALM_LANDMARKS)`. -/
def get_palm_center : Option (List Point) → Option Point
  | none => none
  | some pts =>
    if pts.length < PALM_LANDMARKS.length then none
    else
      let palm_points := PALM_LANDMARKS.filterMap (fun i => pts.get? i)
      if palm_points.isEmpty then none
      else
        some ⟨(palm_points.map Point.x).sum / palm_points.length,
              (palm_points.map Point.y).sum / palm_points.length⟩

/-- Source: `get_fingertips`: the fingertip points whose index is in range. -/
def get_fingertips : Option (List Point) → List Point
  | none => []
  | some pts => FINGERTIP_LANDMARKS.filterMap (fun i => pts.get? i)

/-! ## Zone intersection calculator (`ZoneIntersectionCalculator`) -/

/-- Result record of one intersection strategy.  The source returns a dict;
fields that a strategy does not set keep their zero defaults, and the
`point_result`/`bbox_result` sub-dicts of the hybrid method (never read
back by the core) are not carried. -/
structure IntersectionResult where
  intersecting : Bool
  confidence : ℚ
  method : String
  intersection_points : List String
  overlap_area : ℚ
deriving DecidableEq, Repr

/-- The markers `'fingertip_{i}'` appended for each fingertip inside the
zone, in order (`for i, tip in enumerate(fingertips)`). -/
def fingertipMarkers (rect : Rectangle) : List Point → Nat → List String
  | [], _ => []
  | t :: rest, i =>
    (if rect.contains_point t then ["fingertip_" ++ toString i] else []) ++
      fingertipMarkers rect rest (i + 1)

/-- Source: `point_in_zone_intersection(landmarks, zone_rect, confidence_threshold)`
(source default threshold 0.7). -/
def point_in_zone_intersection (landmarks : Option (List Point))
    (zone_rect : Rectangle) (confidence_threshold : ℚ) : IntersectionResult :=
  let base : IntersectionResult :=
    ⟨false, 0, "point_in_zone", [], 0⟩
  match landmarks with
  | none => base
  | some pts =>
    let palm_center := get_palm_center (some pts)
    let fingertips := get_fingertips (some pts)
    let palm_marker : List String :=
      match palm_center with
      | some c => if zone_rect.contains_point c then ["palm_center"] else []
      | none => []
    let intersection_points := palm_marker ++ fingertipMarkers zone_rect fingertips 0
    let total_points : ℚ := 1 + fingertips.length
    let confidence : ℚ := intersection_points.length / total_points
    { base with
      intersecting := decide (confidence_threshold ≤ confidence),
      confidence := confidence,
      intersection_points := intersection_points }

/-- Source: `bounding_box_intersection(landmarks, zone_rect, confidence_threshold)`
(source default threshold 0.5). -/
def bounding_box_intersection (landmarks : Option (List Point))
    (zone_rect : Rectangle) (confidence_threshold : ℚ) : IntersectionResult :=
  let base : IntersectionResult := ⟨false, 0, "bounding_box", [], 0⟩
  match landmarks with
  | none => base
  | some pts =>
    match get_hand_bounding_box (some pts) with
    | none => base
    | some hand_bbox =>
      if zone_rect.intersects_rectangle hand_bbox then
        let overlap_area := zone_rect.intersection_area hand_bbox
        let hand_area := hand_bbox.area
        let confidence : ℚ := if 0 < hand_area then overlap_area / hand_area else 0
        { base with
          intersecting := decide (confidence_threshold ≤ confidence),
          confidence := confidence,
          overlap_area := overlap_area }
      else base

/-- Source: `hybrid_intersection(landmarks, zone_rect, confidence_threshold)`
(source default threshold 0.6): weighted blend of the two strategies, each
run with the relaxed internal threshold 0.3. -/
def hybrid_intersection (landmarks : Option (List Point))
    (zone_rect : Rectangle) (confidence_threshold : ℚ) : IntersectionResult :=
  let base : IntersectionResult := ⟨false, 0, "hybrid", [], 0⟩
  match landmarks with
  | none => base
  | some pts =>
    let point_result := point_in_zone_intersection (some pts) zone_rect (3/10)
    let bbox_result := bounding_box_intersection (some pts) zone_rect (3/10)
    let combined_confidence :=
      point_result.confidence * (7/10) + bbox_result.confidence * (3/10)
    { base with
      intersecting := decide (confidence_threshold ≤ combined_confidence),
      confidence := combined_confidence }

/-! ## Gesture classifier -/

/-- Coarse hand gesture.  `opened` models the source's `'open'` label
(`open` is a Lean keyword). -/
inductive Gesture where
  | opened
  | closed
  | pinch
  | unknown
deriving DecidableEq, Repr

/-- Squared Euclidean distance (comparisons of Euclidean distances and of
distance ratios are expressed on squares to stay inside `ℚ`). -/
def dist2 (p q : Point) : ℚ := (p.x - q.x) ^ 2 + (p.y - q.y) ^ 2

/-- The five (fingertip index, finger-base index) pairs: thumb, index,
middle, ring, pinky. -/
def FINGER_PAIRS : List (Nat × Nat) := [(4, 1), (8, 5), (12, 9), (16, 13), (20, 17)]

/-- Whether the finger `(tip, base)` has extension ratio
`dist(tip, wrist) / dist(base, wrist) ≥ 1.8` (squared form). -/
def fingerExtended (pts : List Point) (pair : Nat × Nat) : Bool :=
  let wrist := pts.getD 0 ⟨0, 0⟩
  let tip := pts.getD pair.1 ⟨0, 0⟩
  let base := pts.getD pair.2 ⟨0, 0⟩
  decide ((81/25) * dist2 base wrist ≤ dist2 tip wrist)

/-- Whether the finger `(tip, base)` has extension ratio `≤ 1.2`
(squared form): the fingertip stays near the palm. -/
def fingerCurled (pts : List Point) (pair : Nat × Nat) : Bool :=
  let wrist := pts.getD 0 ⟨0, 0⟩
  let tip := pts.getD pair.1 ⟨0, 0⟩
  let base := pts.getD pair.2 ⟨0, 0⟩
  decide (dist2 tip wrist ≤ (36/25) * dist2 base wrist)

/-- Modelled from the spec: `detect_hand_gesture` is referenced by
`IntersectionDetector.detect_intersections` as a method of
`HandLandmarkProcessor` but is not defined anywhere under the sources;
this definition follows spec §4.2 `detect_gesture`.  Priority order
pinch → closed → open → unknown; `None`/empty/short input is `unknown`.
Thresholds instantiate the spec's examples: pinch when the thumb-tip to
index-tip distance is below 0.05 in normalized coordinates (§8) and at
least one other finger is extended; closed/open when a majority (3 of 5)
of the fingers have extension ratio ≤ 1.2 / ≥ 1.8. -/
def detect_hand_gesture : Option (List Point) → Gesture
  | none => .unknown
  | some pts =>
    if pts.length < 21 then .unknown
    else
      let thumb_tip := pts.getD 4 ⟨0, 0⟩
      let index_tip := pts.getD 8 ⟨0, 0⟩
      let others := [(12, 9), (16, 13), (20, 17)]
      let pinchCond :=
        decide (dist2 thumb_tip index_tip < 1/400) &&
          others.any (fingerExtended pts)
      let closedCond := 3 ≤ (FINGER_PAIRS.filter (fingerCurled pts)).length
      let openCond := 3 ≤ (FINGER_PAIRS.filter (fingerExtended pts)).length
      if pinchCond then .pinch
      else if closedCond then .closed
      else if openCond then .opened
      else .unknown

/-! ## Hand-zone state tracker (`HandZoneState`,
`nextsight/zones/intersection_detector.py`) -/

/-- Source: `self.required_stability = 5` — set in `__init__`, never reassigned. -/
def required_stability : Nat := 5

/-- Source: `self.min_event_interval = 1.0` — set in `__init__`, never reassigned. -/
def min_event_interval : ℚ := 1

/-- Per-(hand, zone) debounce state. -/
structure HandZoneState where
  hand_id : String
  zone_id : String
  is_inside : Bool
  entry_time : Option ℚ
  exit_time : Option ℚ
  confidence_history : List ℚ
  stability_count : Nat
  last_event_time : ℚ
deriving DecidableEq, Repr

/-- Fresh state for a (hand, zone) pair, as built by `__init__`. -/
def mkHandZoneState (hand_id zone_id : String) : HandZoneState :=
  ⟨hand_id, zone_id, false, none, none, [], 0, 0⟩

/-- The history after appending the new sample and trimming: the source
appends, then pops the front element once if the length exceeds 15. -/
def newHistory (st : HandZoneState) (confidence : ℚ) : List ℚ :=
  let h := st.confidence_history ++ [confidence]
  if 15 < h.length then h.drop 1 else h

/-- Python `l[-n:]`: the at-most-`n` most recent samples. -/
def lastN (n : Nat) (l : List ℚ) : List ℚ := l.drop (l.length - n)

/-- Source: `HandZoneState.update_confidence(confidence)`; `now` is the value of
`time.time()` at the head of the call.  Returns (state changed?, new state). -/
def update_confidence (st : HandZoneState) (confidence now : ℚ) :
    Bool × HandZoneState :=
  let hist := newHistory st confidence
  if st.is_inside = false then
    let recent_high := (lastN required_stability hist).countP (fun c => decide ((3/5 : ℚ) < c))
    if required_stability ≤ recent_high ∧ min_event_interval ≤ now - st.last_event_time then
      (true, { st with is_inside := true, entry_time := some now,
                       last_event_time := now, stability_count := 0,
                       confidence_history := hist })
    else (false, { st with confidence_history := hist })
  else
    let recent_low := (lastN required_stability hist).countP (fun c => decide (c < (3/10 : ℚ)))
    if required_stability ≤ recent_low ∧ min_event_interval ≤ now - st.last_event_time then
      (true, { st with is_inside := false, exit_time := some now,
                       last_event_time := now, stability_count := 0,
                       confidence_history := hist })
    else (false, { st with confidence_history := hist })

/-! ## Zone data model (`nextsight/zones/zone_config.py`) -/

/-- Source: `ZoneType`: pick or drop. -/
inductive ZoneType where
  | pick
  | drop
deriving DecidableEq, Repr

/-- Source: `ZoneType.value`. -/
def ZoneType.value : ZoneType → String
  | .pick => "pick"
  | .drop => "drop"

/-- Zone record.  Visual fields are carried but uninterpreted. -/
structure Zone where
  id : String
  name : String
  zone_type : ZoneType
  x : ℚ
  y : ℚ
  width : ℚ
  height : ℚ
  active : Bool
  confidence_threshold : ℚ
  color : String
  alpha : ℚ
  border_width : Nat
  hands_inside : List String
  last_interaction : Option ℚ
  interaction_count : Nat
deriving DecidableEq, Repr

/-- Source: `%03d` of the zone-id counter (zero-padded to at least 3 digits). -/
def formatNat3 (n : Nat) : String :=
  (if n < 10 then "00" else if n < 100 then "0" else "") ++ toString n

/-- Source: `ZoneConfig.create_zone(name, zone_type, x, y, width, height)`:
id is derived from the current zone-list length; color from the type
defaults (`__post_init__` leaves these explicit colors unchanged). -/
def create_zone (zones : List Zone) (name : String) (zone_type : ZoneType)
    (x y width height : ℚ) : Zone :=
  { id := zone_type.value ++ "_" ++ formatNat3 zones.length,
    name := name, zone_type := zone_type,
    x := x, y := y, width := width, height := height,
    active := true, confidence_threshold := 7/10,
    color := if zone_type = .pick then "#00ff00" else "#0080ff",
    alpha := 3/10, border_width := 2,
    hands_inside := [], last_interaction := none, interaction_count := 0 }

/-- Source: `ZoneConfig.add_zone(zone)`: rejected (and the list unchanged) when a
zone with the same id already exists. -/
def add_zone (zones : List Zone) (zone : Zone) : Bool × List Zone :=
  if zones.any (fun z => z.id == zone.id) then (false, zones)
  else (true, zones ++ [zone])

/-- Source: `ZoneConfig.remove_zone(zone_id)`: delete the first zone with that id. -/
def remove_zone : List Zone → String → Bool × List Zone
  | [], _ => (false, [])
  | z :: rest, zid =>
    if z.id == zid then (true, rest)
    else
      let r := remove_zone rest zid
      (r.1, z :: r.2)

/-- Source: `ZoneConfig.get_zone(zone_id)`. -/
def get_zone (zones : List Zone) (zone_id : String) : Option Zone :=
  zones.find? (fun z => z.id == zone_id)

/-! ## Zone manager state and event router
(`nextsight/zones/zone_manager.py`) -/

/-- Interaction event types produced by the intersection detector. -/
inductive EventType where
  | hand_enter_zone
  | hand_exit_zone
  | pick_gesture_detected
  | drop_gesture_detected
deriving DecidableEq, Repr

/-- The string the source stores in `event['type']`. -/
def EventType.str : EventType → String
  | .hand_enter_zone => "hand_enter_zone"
  | .hand_exit_zone => "hand_exit_zone"
  | .pick_gesture_detected => "pick_gesture_detected"
  | .drop_gesture_detected => "drop_gesture_detected"

/-- An interaction event as consumed by
`ZoneManager.process_interaction_events` (the fields it reads). -/
structure IEvent where
  etype : EventType
  hand_id : String
  zone_id : String
  timestamp : ℚ
deriving DecidableEq, Repr

/-- Rendering of a timestamp inside the generic event key (the source
interpolates the Python float; an injective rendering of the rational
stands in for it). -/
def ratStr (q : ℚ) : String := toString q.num ++ "/" ++ toString q.den

/-- Source: `event_key = f"{type}_{hand_id}_{zone_id}_{timestamp}"`. -/
def eventKeyGeneric (e : IEvent) : String :=
  e.etype.str ++ "_" ++ e.hand_id ++ "_" ++ e.zone_id ++ "_" ++ ratStr e.timestamp

/-- Source: `enter_key = f"enter_{hand_id}_{zone_id}"`. -/
def enterKey (hand_id zone_id : String) : String :=
  "enter_" ++ hand_id ++ "_" ++ zone_id

/-- Source: `pick_key = f"pick_gesture_{hand_id}_{zone_id}"`. -/
def pickKey (hand_id zone_id : String) : String :=
  "pick_gesture_" ++ hand_id ++ "_" ++ zone_id

/-- Source: `drop_key = f"drop_gesture_{hand_id}_{zone_id}"`. -/
def dropKey (hand_id zone_id : String) : String :=
  "drop_gesture_" ++ hand_id ++ "_" ++ zone_id

/-- Source: `ZoneManager` state: the zone list of its `ZoneConfig`, the
intersection detector's per-(hand, zone) states keyed by
`f"{hand_id}_{zone_id}"`, the hand-consistency map
`active_picks : hand_id -> {zone_id, timestamp}` (the `gesture` value
stored on the gesture path is never read back and is not carried), the
dedupe set `processed_events`, the event logs and the session counters. -/
structure ZMState where
  zones : List Zone
  hand_zone_states : List (String × HandZoneState)
  active_picks : List (String × (String × ℚ))
  processed_events : List String
  pick_events : List IEvent
  drop_events : List IEvent
  total_picks : Nat
  total_drops : Nat
  zones_created : Nat
  zones_deleted : Nat
deriving DecidableEq, Repr

/-- A fresh `ZoneManager` session. -/
def initZM : ZMState := ⟨[], [], [], [], [], [], 0, 0, 0, 0⟩

/-- Source: `ZoneManager.create_zone_direct(...)`: build the zone from the config,
try to add it; on rejection return `none` and leave everything unchanged. -/
def create_zone_direct (s : ZMState) (name : String) (zone_type : ZoneType)
    (x y width height : ℚ) : Option Zone × ZMState :=
  let zone := create_zone s.zones name zone_type x y width height
  let r := add_zone s.zones zone
  if r.1 then
    (some zone, { s with zones := r.2, zones_created := s.zones_created + 1 })
  else (none, s)

/-- Source: `ZoneManager.delete_zone(zone_id)`: remove the zone, drop every
`HandZoneState` whose key ends in `_{zone_id}`
(`IntersectionDetector.reset_zone_states`), and pop the manager's own
`active_picks` entries whose `zone_id` matches.  Nothing else in the
repository reacts to a zone deletion (the `zone_deleted` signal only
reaches UI widgets). -/
def delete_zone (s : ZMState) (zone_id : String) : Bool × ZMState :=
  match get_zone s.zones zone_id with
  | none => (false, s)
  | some _ =>
    let r := remove_zone s.zones zone_id
    if r.1 then
      (true,
        { s with zones := r.2,
                 zones_deleted := s.zones_deleted + 1,
                 hand_zone_states :=
                   s.hand_zone_states.filter
                     (fun kv => !(kv.1.endsWith ("_" ++ zone_id))),
                 active_picks :=
                   s.active_picks.filter (fun kv => !(kv.2.1 == zone_id)) })
    else (false, s)

/-- Source: `if len(self.processed_events) > 100:` rebuild the set from
`list(self.processed_events)[-100:]`.  A CPython set enumerates in a
hash-dependent, unspecified order, so *which* keys survive is not
determined by the program text; the embedding takes that choice as the
parameter `evict` (theorems quantify over it), applied exactly when the
source's size guard fires. -/
def cleanupProcessed (evict : List String → List String)
    (l : List String) : List String :=
  if 100 < l.length then evict l else l

/-- One iteration of the event loop of
`ZoneManager.process_interaction_events`; `evict` resolves the
unspecified set-enumeration order of the cleanup step. -/
def process_one (evict : List String → List String)
    (s : ZMState) (e : IEvent) : ZMState :=
  if eventKeyGeneric e ∈ s.processed_events then s
  else
    let s' :=
      match e.etype with
      | .hand_enter_zone =>
        match get_zone s.zones e.zone_id with
        | none => s
        | some zone =>
          let ekey := enterKey e.hand_id e.zone_id
          if ekey ∈ s.processed_events then s
          else
            match zone.zone_type with
            | .pick =>
              { s with pick_events := s.pick_events ++ [e],
                       total_picks := s.total_picks + 1,
                       active_picks :=
                         dictInsert s.active_picks e.hand_id (e.zone_id, e.timestamp),
                       processed_events := addKey s.processed_events ekey }
            | .drop =>
              if (s.active_picks.lookup e.hand_id).isSome then
                { s with drop_events := s.drop_events ++ [e],
                         total_drops := s.total_drops + 1,
                         active_picks := eraseKey s.active_picks e.hand_id,
                         processed_events := addKey s.processed_events ekey }
              else s
      | .pick_gesture_detected =>
        let pkey := pickKey e.hand_id e.zone_id
        if pkey ∈ s.processed_events then s
        else
          { s with pick_events := s.pick_events ++ [e],
                   total_picks := s.total_picks + 1,
                   active_picks :=
                     dictInsert s.active_picks e.hand_id (e.zone_id, e.timestamp),
                   processed_events := addKey s.processed_events pkey }
      | .drop_gesture_detected =>
        let dkey := dropKey e.hand_id e.zone_id
        if dkey ∈ s.processed_events then s
        else if (s.active_picks.lookup e.hand_id).isSome then
          { s with drop_events := s.drop_events ++ [e],
                   total_drops := s.total_drops + 1,
                   active_picks := eraseKey s.active_picks e.hand_id,
                   processed_events := addKey s.processed_events dkey }
        else s
      | .hand_exit_zone => s
    { s' with processed_events := cleanupProcessed evict s'.processed_events }

/-- Source: `ZoneManager.process_interaction_events(events)`. -/
def process_interaction_events (evict : List String → List String)
    (s : ZMState) (events : List IEvent) : ZMState :=
  events.foldl (process_one evict) s

/-! ## Process workflow engine (`nextsight/core/process_manager.py`) -/

/-- Source: `Process` dataclass (the `__post_init__` stamping of `created_at` is
represented by the caller passing the clock value). -/
structure Process where
  id : String
  name : String
  pick_zone_id : Option String
  drop_zone_id : Option String
  created_at : ℚ
  active : Bool
  completed_count : Nat
  error_count : Nat
deriving DecidableEq, Repr

/-- Source: `ProcessManager` state: the process dict in insertion order, the id
counter, and `active_picks : hand_id -> (process_id, zone_id)`. -/
structure PMState where
  processes : List (String × Process)
  process_counter : Nat
  active_picks : List (String × (String × String))
deriving DecidableEq, Repr

/-- A fresh manager before any load (`processes = {}`, counter 1). -/
def initPM : PMState := ⟨[], 1, []⟩

/-- In-place update of one process in the dict (`process.completed_count += 1`
mutates the stored object; insertion order is unchanged). -/
def updateProcess (l : List (String × Process)) (pid : String)
    (f : Process → Process) : List (String × Process) :=
  l.map (fun kv => if kv.1 = pid then (kv.1, f kv.2) else kv)

/-- Source: `create_process(name=None)`: allocate `process_{counter}`, default name
`Process {counter}`, insert, bump the counter.  `now` models `time.time()`.
A dict insert on an existing key silently overwrites it. -/
def create_process (s : PMState) (name : Option String) (now : ℚ) :
    Process × PMState :=
  let process_id := "process_" ++ toString s.process_counter
  let pname := name.getD ("Process " ++ toString s.process_counter)
  let process : Process :=
    ⟨process_id, pname, none, none, now, true, 0, 0⟩
  (process,
    { s with processes := dictInsert s.processes process_id process,
             process_counter := s.process_counter + 1 })

/-- Source: `get_process_id_for_pick_zone(zone_id)`: first process (in insertion
order) whose `pick_zone_id` equals the zone. -/
def get_process_id_for_pick_zone (s : PMState) (zone_id : String) : Option String :=
  (s.processes.find? (fun kv => kv.2.pick_zone_id == some zone_id)).map (·.1)

/-- Source: `get_process_id_for_drop_zone(zone_id)`: first process (in insertion
order) whose `drop_zone_id` equals the zone. -/
def get_process_id_for_drop_zone (s : PMState) (zone_id : String) : Option String :=
  (s.processes.find? (fun kv => kv.2.drop_zone_id == some zone_id)).map (·.1)

/-- Source: `handle_pick_event(hand_id, zone_id)`. -/
def handle_pick_event (s : PMState) (hand_id zone_id : String) : Bool × PMState :=
  match get_process_id_for_pick_zone s zone_id with
  | none => (false, s)
  | some process_id =>
    (true, { s with active_picks :=
               dictInsert s.active_picks hand_id (process_id, zone_id) })

/-- Source: `handle_drop_event(hand_id, zone_id)`: see C1/C2.  `none` models the
`KeyError` that a dangling `active_process_id` would raise on
`self.processes[active_process_id]`; both branches of the source perform
that same lookup, so it is hoisted above the equality test. -/
def handle_drop_event (s : PMState) (hand_id zone_id : String) :
    Option (Bool × PMState) :=
  match s.active_picks.lookup hand_id with
  | none => some (false, s)
  | some (active_process_id, _pick_zone_id) =>
    match get_process_id_for_drop_zone s zone_id with
    | none => some (false, s)
    | some drop_process_id =>
      match s.processes.lookup active_process_id with
      | none => none
      | some _ =>
        if active_process_id = drop_process_id then
          let procs := updateProcess s.processes active_process_id
            (fun p => { p with completed_count := p.completed_count + 1 })
          some (true, { s with processes := procs,
                               active_picks := eraseKey s.active_picks hand_id })
        else
          let procs := updateProcess s.processes active_process_id
            (fun p => { p with error_count := p.error_count + 1 })
          some (false, { s with processes := procs,
                                active_picks := eraseKey s.active_picks hand_id })

/-- Parsed content of `processes.json` as `load_processes` reads it:
`data.get('process_counter', 1)` and `data.get('processes', {})`. -/
structure LoadData where
  process_counter : Option Nat
  processes : List (String × Process)
deriving DecidableEq, Repr

/-- Source: `load_processes()`: `none` models a missing file (`FileNotFoundError`:
state untouched, returns `True`); with data present the counter is taken
directly from the stored field (default 1) and the process dict rebuilt —
the counter is *not* recomputed from the id suffixes. -/
def load_processes (s : PMState) (d : Option LoadData) : Bool × PMState :=
  match d with
  | none => (true, s)
  | some data =>
    (true, { s with process_counter := data.process_counter.getD 1,
                    processes := data.processes })

/-- Observations of a drop outcome used by C1/C2: returned flag, the
named process's completed and error counts, and the hand's remaining
active pick. -/
def dropObs (r : Option (Bool × PMState)) (pid hand_id : String) :
    Option (Bool × Option Nat × Option Nat × Option (String × String)) :=
  r.map (fun x =>
    (x.1,
     ((x.2.processes.lookup pid).map Process.completed_count),
     ((x.2.processes.lookup pid).map Process.error_count),
     x.2.active_picks.lookup hand_id))

/-! ## Whole-system view of a zone deletion

`ZoneManager.delete_zone` is the only code that reacts to a zone deletion:
its `zone_deleted` signal is connected only to UI widgets, and neither it
nor any caller touches the `ProcessManager`. -/

/-- The zone manager and the process workflow engine side by side. -/
structure SystemState where
  zm : ZMState
  pm : PMState
deriving DecidableEq, Repr

/-- Deleting a zone at the system level: the zone manager runs its purge;
the process engine is untouched (nothing in the repository clears it). -/
def system_delete_zone (s : SystemState) (zone_id : String) : Bool × SystemState :=
  let r := delete_zone s.zm zone_id
  (r.1, ⟨r.2, s.pm⟩)

/-! ## General lemmas about the dictionary/set helpers -/

theorem lookup_cons {α : Type} (k : String) (kv : String × α)
    (rest : List (String × α)) :
    List.lookup k (kv :: rest) =
      if k = kv.1 then some kv.2 else List.lookup k rest := by
  obtain ⟨k1, v⟩ := kv
  by_cases h : k = k1
  · subst h
    simp [List.lookup]
  · have hb : (k == k1) = false := by
      simp [beq_eq_false_iff_ne, h]
    simp [List.lookup, hb, h]

theorem lookup_eraseKey {α : Type} (l : List (String × α)) (k : String) :
    (eraseKey l k).lookup k = none := by
  induction l with
  | nil => rfl
  | cons kv rest ih =>
    by_cases h : kv.1 = k
    · simpa [eraseKey, List.filter_cons, h] using ih
    · simp only [eraseKey, List.filter_cons] at ih ⊢
      have hb : (kv.1 == k) = false := by
        simp [beq_eq_false_iff_ne, h]
      simp only [hb, Bool.not_false, if_true, lookup_cons]
      simp [Ne.symm h, ih]

theorem lookup_updateProcess (l : List (String × Process)) (pid : String)
    (f : Process → Process) :
    (updateProcess l pid f).lookup pid = (l.lookup pid).map f := by
  induction l with
  | nil => rfl
  | cons kv rest ih =>
    by_cases h : kv.1 = pid
    · simp [updateProcess, lookup_cons, h]
    · simp only [updateProcess, List.map_cons, h, if_false] at ih ⊢
      rw [lookup_cons, lookup_cons]
      have hne : ¬pid = kv.1 := fun hh => h hh.symm
      simp only [if_neg hne]
      exact ih

theorem any_filter_not {α : Type} (l : List α) (p : α → Bool) :
    (l.filter (fun a => !(p a))).any p = false := by
  induction l with
  | nil => rfl
  | cons a rest ih =>
    by_cases h : p a
    · simp [List.filter_cons, h, ih]
    · simp only [List.filter_cons] at ih ⊢
      simp [h, ih]

theorem remove_zone_found (zs : List Zone) (zid : String)
    (h : (get_zone zs zid).isSome = true) : (remove_zone zs zid).1 = true := by
  induction zs with
  | nil => simp [get_zone] at h
  | cons z rest ih =>
    by_cases hz : z.id == zid
    · simp [remove_zone, hz]
    · simp only [get_zone, List.find?] at h ih
      simp only [hz] at h
      simp [remove_zone, hz, ih h]

/-! ## Concrete fixtures used by the witnesses and counterexamples -/

/-- Process 1: pick zone `PZ1`, drop zone `DZ1`, fresh counters. -/
def proc1 : Process := ⟨"process_1", "Process 1", some "PZ1", some "DZ1", 0, true, 0, 0⟩

/-- Process 2: pick zone `PZ2`, drop zone `DZ2`, fresh counters. -/
def proc2 : Process := ⟨"process_2", "Process 2", some "PZ2", some "DZ2", 0, true, 0, 0⟩

/-- Engine state: two processes; `h1` picked from process 1, `h2` from
process 2. -/
def pmFix : PMState :=
  ⟨[("process_1", proc1), ("process_2", proc2)], 3,
   [("h1", ("process_1", "PZ1")), ("h2", ("process_2", "PZ2"))]⟩

/-! ## C1 — drop routing of the workflow engine -/

/-- C1: with an active pick for process `P` held by `hand` and `zone`
resolving to drop-zone owner `Q` (with `P` present in the process dict),
`handle_drop_event` returns `True` and bumps `P`'s `completed_count` by
exactly one when `Q = P`, returns `False` and bumps `P`'s `error_count`
by exactly one when `Q ≠ P` (the other counter untouched, the pick
cleared in both cases); a hand with no active pick gets `False` and a
completely unchanged state. -/
theorem handle_drop_event_routes_by_process (s : PMState)
    (hand zone P Q zp : String) (proc : Process) :
    (s.active_picks.lookup hand = some (P, zp) →
     get_process_id_for_drop_zone s zone = some Q →
     s.processes.lookup P = some proc →
       ((Q = P →
          dropObs (handle_drop_event s hand zone) P hand =
            some (true, some (proc.completed_count + 1), some proc.error_count, none)) ∧
        (Q ≠ P →
          dropObs (handle_drop_event s hand zone) P hand =
            some (false, some proc.completed_count, some (proc.error_count + 1), none)))) ∧
    (s.active_picks.lookup hand = none →
      handle_drop_event s hand zone = some (false, s)) := by
  constructor
  · intro hpick hzone hproc
    constructor
    · intro hQP
      subst hQP
      simp only [handle_drop_event, hpick, hzone, hproc, if_pos rfl, dropObs, Option.map_some]
      simp [lookup_updateProcess, lookup_eraseKey, hproc]
    · intro hQP
      have hPQ : ¬P = Q := fun hh => hQP hh.symm
      simp only [handle_drop_event, hpick, hzone, hproc, if_neg hPQ, dropObs, Option.map_some]
      simp [lookup_updateProcess, lookup_eraseKey, hproc]
  · intro hnone
    simp [handle_drop_event, hnone]

/-- C1 witness: successful drop by `h1` in `DZ1`, cross-process drop by
`h2` in `DZ1`, and a no-pick hand `h3`. -/
theorem handle_drop_event_routes_by_process_witness :
    dropObs (handle_drop_event pmFix "h1" "DZ1") "process_1" "h1" =
      some (true, some 1, some 0, none) ∧
    dropObs (handle_drop_event pmFix "h2" "DZ1") "process_2" "h2" =
      some (false, some 0, some 1, none) ∧
    handle_drop_event pmFix "h3" "DZ1" = some (false, pmFix) := by
  refine ⟨?_, ?_, ?_⟩
  · exact ((handle_drop_event_routes_by_process pmFix "h1" "DZ1" "process_1" "process_1"
      "PZ1" proc1).1 (by decide) (by decide) (by decide)).1 rfl
  · exact ((handle_drop_event_routes_by_process pmFix "h2" "DZ1" "process_2" "process_1"
      "PZ2" proc2).1 (by decide) (by decide) (by decide)).2 (by decide)
  · exact (handle_drop_event_routes_by_process pmFix "h3" "DZ1" "x" "y" "z" proc1).2
      (by decide)

/-! ## C2 — is the active pick cleared unconditionally on any drop attempt? -/

/-- C2 counterexample: `h1` holds an active pick and the drop attempt
names a zone (`ZX`) that is no process's drop zone — `handle_drop_event`
returns `False` and the active pick is *retained*, contradicting the
claimed unconditional clearing on any drop attempt. -/
theorem handle_drop_event_retains_pick_cex :
    (pmFix.active_picks.lookup "h1").isSome = true ∧
    (handle_drop_event pmFix "h1" "ZX").map
        (fun r => (r.1, r.2.active_picks.lookup "h1")) =
      some (false, some ("process_1", "PZ1")) := by
  decide

/-- C2 amended: on a drop attempt by a hand with an active pick, the
active-pick record is cleared exactly when the zone resolves to some
process's drop zone (right or wrong process); when no process owns the
zone as a drop zone the call returns `False` and leaves the state — the
pick included — unchanged. -/
theorem handle_drop_event_clears_pick_iff_zone_resolves (s : PMState)
    (hand zone P zp dpid : String) (proc : Process)
    (hpick : s.active_picks.lookup hand = some (P, zp))
    (hproc : s.processes.lookup P = some proc) :
    (get_process_id_for_drop_zone s zone = some dpid →
      (handle_drop_event s hand zone).map
          (fun r => r.2.active_picks.lookup hand) = some none) ∧
    (get_process_id_for_drop_zone s zone = none →
      handle_drop_event s hand zone = some (false, s)) := by
  constructor
  · intro hzone
    by_cases hPd : P = dpid
    · simp [handle_drop_event, hpick, hzone, hproc, if_pos hPd, lookup_eraseKey]
    · simp [handle_drop_event, hpick, hzone, hproc, if_neg hPd, lookup_eraseKey]
  · intro hzone
    simp [handle_drop_event, hpick, hzone]

/-- C2 amended witness: `h2` drops in the right zone `DZ2` (pick cleared)
and in the unresolvable zone `ZX` (state unchanged). -/
theorem handle_drop_event_clears_pick_iff_zone_resolves_witness :
    (handle_drop_event pmFix "h2" "DZ2").map
        (fun r => r.2.active_picks.lookup "h2") = some none ∧
    handle_drop_event pmFix "h2" "ZX" = some (false, pmFix) := by
  refine ⟨?_, ?_⟩
  · exact (handle_drop_event_clears_pick_iff_zone_resolves pmFix "h2" "DZ2" "process_2"
      "PZ2" "process_2" proc2 (by decide) (by decide)).1 (by decide)
  · exact (handle_drop_event_clears_pick_iff_zone_resolves pmFix "h2" "ZX" "process_2"
      "PZ2" "unused" proc2 (by decide) (by decide)).2 (by decide)

/-! ## C9 — does loading recompute the id counter from the id suffixes? -/

/-- A stored file whose `process_counter` went stale: it says 1 although
`process_1` already exists among the saved processes. -/
def staleData : LoadData :=
  ⟨some 1, [("process_1", ⟨"process_1", "Process 1", none, none, 0, true, 3, 1⟩)]⟩

/-- C9 counterexample: after loading `staleData` the counter is the
stored 1 (not max-suffix + 1 = 2), and the next `create_process`
allocates `process_1` — the id of a loaded process, a collision. -/
theorem load_processes_stale_counter_cex :
    ((load_processes initPM (some staleData)).2).process_counter = 1 ∧
    ((create_process (load_processes initPM (some staleData)).2 none 0).1).id
      = "process_1" ∧
    (((load_processes initPM (some staleData)).2).processes.lookup
      "process_1").isSome = true := by
  decide

/-- C9 amended: `load_processes` restores the id counter verbatim from the
persisted `process_counter` field (1 when the field or the file is
absent) and rebuilds the process dict; no recomputation from the maximum
numeric id suffix takes place, so only states whose stored counter is
accurate are collision-free after a load. -/
theorem load_processes_restores_stored_counter (s : PMState) (d : LoadData) :
    (load_processes s (some d)).1 = true ∧
    ((load_processes s (some d)).2).process_counter = d.process_counter.getD 1 ∧
    ((load_processes s (some d)).2).processes = d.processes ∧
    load_processes s none = (true, s) := by
  refine ⟨rfl, rfl, rfl, rfl⟩

/-! ## C10 — zone-id reuse after a deletion -/

/-- After creating pick zones `pick_000` and `pick_001`. -/
def zoneStep2 : ZMState :=
  (create_zone_direct (create_zone_direct initZM "Zone A" .pick 0 0 1 1).2
    "Zone B" .pick 0 0 1 1).2

/-- After deleting `pick_000`: only `pick_001` remains. -/
def zoneStep3 : ZMState := (delete_zone zoneStep2 "pick_000").2

/-- C10: create two pick zones (`pick_000`, `pick_001`), delete the first;
the zone-id generator, fed by the new list length, reproduces the id
`pick_001` of the surviving zone, so `add_zone` rejects the new zone
(list unchanged) and `create_zone_direct` returns `none` (state
unchanged) — uniqueness is kept only by rejecting the new zone. -/
theorem zone_id_reuse_after_deletion :
    ((create_zone_direct initZM "Zone A" .pick 0 0 1 1).2.zones.map Zone.id)
      = ["pick_000"] ∧
    (zoneStep2.zones.map Zone.id) = ["pick_000", "pick_001"] ∧
    (zoneStep3.zones.map Zone.id) = ["pick_001"] ∧
    (create_zone zoneStep3.zones "Zone C" .pick 0 0 1 1).id = "pick_001" ∧
    zoneStep3.zones.any
      (fun zo => zo.id == (create_zone zoneStep3.zones "Zone C" .pick 0 0 1 1).id)
      = true ∧
    (add_zone zoneStep3.zones (create_zone zoneStep3.zones "Zone C" .pick 0 0 1 1)).1
      = false ∧
    (add_zone zoneStep3.zones (create_zone zoneStep3.zones "Zone C" .pick 0 0 1 1)).2
      = zoneStep3.zones ∧
    (create_zone_direct zoneStep3 "Zone C" .pick 0 0 1 1).1 = none ∧
    (create_zone_direct zoneStep3 "Zone C" .pick 0 0 1 1).2 = zoneStep3 := by
  refine ⟨rfl, rfl, rfl, rfl, rfl, rfl, ?_, rfl, ?_⟩
  · show (if zoneStep3.zones.any
      (fun z => z.id == (create_zone zoneStep3.zones "Zone C" .pick 0 0 1 1).id)
      then (false, zoneStep3.zones)
      else (true, zoneStep3.zones ++ [create_zone zoneStep3.zones "Zone C" .pick 0 0 1 1])).2
      = zoneStep3.zones
    rfl
  · rfl

/-! ## C7 — neutrality of the strategies on `None`/empty landmarks -/

/-- C7 counterexample: at threshold 0 (the claim quantifies over *every*
threshold) an empty landmark list yields confidence 0 but
`intersecting = True` for the point and hybrid strategies, because the
source compares with `confidence >= confidence_threshold`. -/
theorem zero_threshold_empty_landmarks_cex :
    (point_in_zone_intersection (some []) ⟨0, 0, 1, 1⟩ 0).confidence = 0 ∧
    (point_in_zone_intersection (some []) ⟨0, 0, 1, 1⟩ 0).intersecting = true ∧
    (hybrid_intersection (some []) ⟨0, 0, 1, 1⟩ 0).confidence = 0 ∧
    (hybrid_intersection (some []) ⟨0, 0, 1, 1⟩ 0).intersecting = true := by
  norm_num [point_in_zone_intersection, hybrid_intersection,
    bounding_box_intersection, get_palm_center, get_fingertips,
    get_hand_bounding_box, PALM_LANDMARKS, FINGERTIP_LANDMARKS, fingertipMarkers]

/-- C7 amended: for every zone rectangle and every *positive* threshold,
each of the three strategies returns confidence 0 and `intersecting =
False` on `None` and on empty landmark input (at a threshold ≤ 0 the
point and hybrid strategies report `intersecting = True` with confidence
0 on an empty list, since the comparison is `confidence ≥ threshold`). -/
theorem strategies_neutral_on_none_or_empty (rect : Rectangle) (thr : ℚ)
    (hthr : 0 < thr) :
    point_in_zone_intersection none rect thr = ⟨false, 0, "point_in_zone", [], 0⟩ ∧
    bounding_box_intersection none rect thr = ⟨false, 0, "bounding_box", [], 0⟩ ∧
    hybrid_intersection none rect thr = ⟨false, 0, "hybrid", [], 0⟩ ∧
    (point_in_zone_intersection (some []) rect thr).confidence = 0 ∧
    (point_in_zone_intersection (some []) rect thr).intersecting = false ∧
    bounding_box_intersection (some []) rect thr = ⟨false, 0, "bounding_box", [], 0⟩ ∧
    (hybrid_intersection (some []) rect thr).confidence = 0 ∧
    (hybrid_intersection (some []) rect thr).intersecting = false := by
  have hnle : ¬(thr ≤ 0) := not_le.mpr hthr
  refine ⟨rfl, rfl, rfl, ?_, ?_, rfl, ?_, ?_⟩ <;>
    norm_num [point_in_zone_intersection, hybrid_intersection,
      bounding_box_intersection, get_palm_center, get_fingertips,
      get_hand_bounding_box, PALM_LANDMARKS, FINGERTIP_LANDMARKS,
      fingertipMarkers, hnle]

/-- C7 amended witness: concrete instance at the unit square and the
production default threshold 0.6. -/
theorem strategies_neutral_on_none_or_empty_witness :
    point_in_zone_intersection none ⟨0, 0, 1, 1⟩ (3/5) =
      ⟨false, 0, "point_in_zone", [], 0⟩ ∧
    (point_in_zone_intersection (some []) ⟨0, 0, 1, 1⟩ (3/5)).intersecting = false ∧
    (hybrid_intersection (some []) ⟨0, 0, 1, 1⟩ (3/5)).intersecting = false := by
  have h := strategies_neutral_on_none_or_empty ⟨0, 0, 1, 1⟩ (3/5) (by norm_num)
  exact ⟨h.1, h.2.2.2.2.1, h.2.2.2.2.2.2.2⟩

/-! ## C8 — zone deletion cascade -/

/-- Zone fixture: pick zone `pick_000`. -/
def zPick8 : Zone := create_zone [] "Pick 1" .pick 0 0 1 1

/-- Zone fixture: drop zone `drop_001`. -/
def zDrop8 : Zone := create_zone [zPick8] "Drop 1" .drop 0 0 1 1

/-- System fixture: `left_0` holds an in-flight pick on `pick_000` — in
the zone manager's consistency map, in its per-(hand, zone) states, and
in the workflow engine's active-pick map (process_1 pairs `pick_000`
with `drop_001`). -/
def sysFix : SystemState :=
  ⟨{ initZM with
      zones := [zPick8, zDrop8],
      hand_zone_states :=
        [("left_0_pick_000",
          { mkHandZoneState "left_0" "pick_000" with is_inside := true })],
      active_picks := [("left_0", ("pick_000", 0))] },
   ⟨[("process_1", ⟨"process_1", "Process 1", some "pick_000", some "drop_001",
       0, true, 0, 0⟩)], 2,
    [("left_0", ("process_1", "pick_000"))]⟩⟩

/-- C8 counterexample: deleting `pick_000` succeeds, yet the Process
Workflow Engine still holds `left_0`'s active pick referencing the
deleted zone, and a later drop in `drop_001` *completes* process_1 from
that stale pick — both in contradiction with the claim. -/
theorem zone_deletion_stale_engine_pick_cex :
    (system_delete_zone sysFix "pick_000").1 = true ∧
    ((system_delete_zone sysFix "pick_000").2.pm.active_picks.lookup "left_0")
      = some ("process_1", "pick_000") ∧
    ((handle_drop_event (system_delete_zone sysFix "pick_000").2.pm
        "left_0" "drop_001").map (fun r => r.1)) = some true := by
  decide

/-- C8 amended: `delete_zone` on an existing zone purges the zone
manager's own per-hand state — every `HandZoneState` keyed on the zone
and every zone-manager active-pick entry referencing it — but the
Process Workflow Engine's state (its active-pick map included) is left
completely untouched. -/
theorem delete_zone_purges_zone_manager_state (s : SystemState) (zid : String)
    (hz : (get_zone s.zm.zones zid).isSome = true) :
    (system_delete_zone s zid).1 = true ∧
    ((system_delete_zone s zid).2.zm.hand_zone_states.any
      (fun kv => kv.1.endsWith ("_" ++ zid))) = false ∧
    ((system_delete_zone s zid).2.zm.active_picks.any
      (fun kv => kv.2.1 == zid)) = false ∧
    (system_delete_zone s zid).2.pm = s.pm := by
  obtain ⟨z, hfind⟩ := Option.isSome_iff_exists.mp hz
  have hrm : (remove_zone s.zm.zones zid).1 = true := remove_zone_found _ _ hz
  refine ⟨?_, ?_, ?_, rfl⟩
  · simp [system_delete_zone, delete_zone, hfind, hrm]
  · simp [system_delete_zone, delete_zone, hfind, hrm, any_filter_not]
  · simp [system_delete_zone, delete_zone, hfind, hrm, any_filter_not]

/-- C8 amended witness: the fixture system after deleting `pick_000`. -/
theorem delete_zone_purges_zone_manager_state_witness :
    (system_delete_zone sysFix "pick_000").1 = true ∧
    ((system_delete_zone sysFix "pick_000").2.zm.hand_zone_states.any
      (fun kv => kv.1.endsWith ("_" ++ "pick_000"))) = false ∧
    ((system_delete_zone sysFix "pick_000").2.zm.active_picks.any
      (fun kv => kv.2.1 == "pick_000")) = false ∧
    (system_delete_zone sysFix "pick_000").2.pm = sysFix.pm := by
  exact delete_zone_purges_zone_manager_state sysFix "pick_000" (by decide)

/-! ## C3 — debounced OUTSIDE → INSIDE transition -/

theorem count_window_iff (l : List ℚ) (p : ℚ → Bool) :
    5 ≤ (lastN 5 l).countP p ↔ (5 ≤ l.length ∧ (lastN 5 l).all p = true) := by
  have hlen : (lastN 5 l).length = l.length - (l.length - 5) := by
    simp [lastN]
  have hle : (lastN 5 l).countP p ≤ (lastN 5 l).length :=
    List.countP_le_length p
  constructor
  · intro h
    have heq : (lastN 5 l).countP p = (lastN 5 l).length := by omega
    refine ⟨by omega, ?_⟩
    rw [List.all_eq_true]
    intro x hx
    exact List.countP_eq_length.mp heq x hx
  · rintro ⟨h5, hall⟩
    have heq : (lastN 5 l).countP p = (lastN 5 l).length :=
      List.countP_eq_length.mpr (fun a ha => List.all_eq_true.mp hall a ha)
    omega

/-- C3: from the OUTSIDE state, `update_confidence` flips to INSIDE and
returns `True` exactly when the (then at least 5 deep) history ends in 5
samples all above 0.6 and at least `min_event_interval` (1.0 s) has
passed since the pair's last transition — so a second qualifying pattern
within less than 1.0 s is suppressed; and from the INSIDE state a
further all-high window (a 6th high sample) does not re-fire: the state
stays INSIDE with no transition reported. -/
theorem update_confidence_enter_spec (st : HandZoneState) (c now : ℚ) :
    (st.is_inside = false →
      (((update_confidence st c now).1 = true) ↔
        (5 ≤ (newHistory st c).length ∧
         (lastN 5 (newHistory st c)).all (fun x => decide ((3/5 : ℚ) < x)) = true ∧
         1 ≤ now - st.last_event_time)) ∧
      (update_confidence st c now).2.is_inside = (update_confidence st c now).1) ∧
    (st.is_inside = true →
      (lastN 5 (newHistory st c)).all (fun x => decide ((3/10 : ℚ) ≤ x)) = true →
      (update_confidence st c now).1 = false ∧
      (update_confidence st c now).2.is_inside = true) := by
  constructor
  · intro hin
    by_cases hc : 5 ≤ (lastN 5 (newHistory st c)).countP
        (fun x => decide ((3/5 : ℚ) < x)) ∧ 1 ≤ now - st.last_event_time
    · constructor
      · simp only [update_confidence, hin, required_stability, min_event_interval,
          if_pos rfl, if_pos hc]
        exact iff_of_true rfl ⟨((count_window_iff _ _).mp hc.1).1,
          ((count_window_iff _ _).mp hc.1).2, hc.2⟩
      · simp [update_confidence, hin, required_stability, min_event_interval,
          if_pos hc]
    · constructor
      · simp only [update_confidence, hin, required_stability, min_event_interval,
          if_pos rfl, if_neg hc]
        refine iff_of_false (by simp) ?_
        rintro ⟨h5, hall, hint⟩
        exact hc ⟨(count_window_iff _ _).mpr ⟨h5, hall⟩, hint⟩
      · simp [update_confidence, hin, required_stability, min_event_interval,
          if_neg hc]
  · intro hin hall
    have hzero : (lastN 5 (newHistory st c)).countP
        (fun x => decide (x < (3/10 : ℚ))) = 0 := by
      rw [List.countP_eq_zero]
      intro a ha
      have := List.all_eq_true.mp hall a ha
      simp only [decide_eq_true_eq] at this ⊢
      exact not_lt.mpr this
    have hnc : ¬(5 ≤ (lastN 5 (newHistory st c)).countP
        (fun x => decide (x < (3/10 : ℚ))) ∧ 1 ≤ now - st.last_event_time) := by
      rw [hzero]
      rintro ⟨h5, -⟩
      omega
    constructor
    · simp [update_confidence, hin, required_stability, min_event_interval, hnc]
    · simp [update_confidence, hin, required_stability, min_event_interval, hnc]

/-- OUTSIDE state with four high samples already accumulated. -/
def stWit : HandZoneState :=
  { mkHandZoneState "left_0" "pick_000" with
      confidence_history := [7/10, 7/10, 7/10, 7/10] }

/-- C3 witness: the 5th high sample fires the enter exactly when the
minimum interval has passed (`now = 2`, last event at 0), and the same
pattern with the last event at 1.5 is suppressed (interval 0.5 < 1). -/
theorem update_confidence_enter_spec_witness :
    (update_confidence stWit (7/10) 2).1 = true ∧
    (update_confidence stWit (7/10) 2).2.is_inside = true ∧
    (update_confidence { stWit with last_event_time := 3/2 } (7/10) 2).1 = false := by
  have h1 := (update_confidence_enter_spec stWit (7/10) 2).1 rfl
  have hfire : (update_confidence stWit (7/10) 2).1 = true := by
    refine h1.1.mpr ⟨?_, ?_, ?_⟩
    · norm_num [newHistory, stWit, mkHandZoneState]
    · norm_num [newHistory, lastN, stWit, mkHandZoneState]
    · norm_num [stWit, mkHandZoneState]
  have h2 := (update_confidence_enter_spec
    { stWit with last_event_time := 3/2 } (7/10) 2).1 rfl
  refine ⟨hfire, (h1.2).trans hfire, ?_⟩
  refine Bool.eq_false_iff.mpr (fun ht => ?_)
  have := (h2.1.mp ht).2.2
  norm_num [stWit, mkHandZoneState] at this

/-! ## C5 — gesture classifier totality and guard -/

/-- C5: the classifier is a total function into
{open, closed, pinch, unknown}, and `None`, empty, or sub-21-point
input maps to `unknown`. -/
theorem detect_hand_gesture_total_and_guarded (lm : Option (List Point))
    (pts : List Point) (hlt : pts.length < 21) :
    (detect_hand_gesture lm = .opened ∨ detect_hand_gesture lm = .closed ∨
     detect_hand_gesture lm = .pinch ∨ detect_hand_gesture lm = .unknown) ∧
    detect_hand_gesture none = .unknown ∧
    detect_hand_gesture (some pts) = .unknown := by
  refine ⟨?_, rfl, ?_⟩
  · rcases hg : detect_hand_gesture lm with _ | _ | _ | _ <;> simp
  · simp [detect_hand_gesture, if_pos hlt]

/-- C5 witness: `None` and the empty landmark list. -/
theorem detect_hand_gesture_total_and_guarded_witness :
    (detect_hand_gesture none = .opened ∨ detect_hand_gesture none = .closed ∨
     detect_hand_gesture none = .pinch ∨ detect_hand_gesture none = .unknown) ∧
    detect_hand_gesture none = .unknown ∧
    detect_hand_gesture (some []) = .unknown :=
  detect_hand_gesture_total_and_guarded none [] (by decide)

/-! ## C6 — the hybrid strategy is the stated weighted blend -/

theorem fingertipMarkers_length (rect : Rectangle) (l : List Point) (i : Nat) :
    (fingertipMarkers rect l i).length =
      l.countP (fun t => rect.contains_point t) := by
  induction l generalizing i with
  | nil => rfl
  | cons t rest ih =>
    by_cases h : rect.contains_point t
    · simp [fingertipMarkers, h, ih, List.countP_cons]
    · simp [fingertipMarkers, h, ih, List.countP_cons]

/-- The claim's wording of the point-based count: palm center and
fingertips are the key points, counted when inside the zone. -/
def keyPointsInside (pts : List Point) (rect : Rectangle) : Nat :=
  (match get_palm_center (some pts) with
   | some c => if rect.contains_point c then 1 else 0
   | none => 0) +
    (get_fingertips (some pts)).countP (fun t => rect.contains_point t)

/-- The claim's point-based confidence formula:
(key points inside) / (1 + number of fingertips). -/
def pointConfidenceSpec (pts : List Point) (rect : Rectangle) : ℚ :=
  (keyPointsInside pts rect : ℚ) / (1 + ((get_fingertips (some pts)).length : ℚ))

/-- C6: for every non-`None` landmark list, the hybrid confidence is
0.7 × point-based + 0.3 × bbox-based (both sub-results at the relaxed
threshold 0.3), the point-based confidence is the claim's
(key points inside)/(1 + fingertip count) formula, and the hybrid result
is `intersecting` exactly when the blended confidence reaches the
caller's threshold. -/
theorem hybrid_is_weighted_blend (pts : List Point) (rect : Rectangle) (thr : ℚ) :
    (hybrid_intersection (some pts) rect thr).confidence =
      7/10 * (point_in_zone_intersection (some pts) rect (3/10)).confidence +
      3/10 * (bounding_box_intersection (some pts) rect (3/10)).confidence ∧
    (point_in_zone_intersection (some pts) rect (3/10)).confidence =
      pointConfidenceSpec pts rect ∧
    ((hybrid_intersection (some pts) rect thr).intersecting = true ↔
      thr ≤ (hybrid_intersection (some pts) rect thr).confidence) := by
  refine ⟨?_, ?_, ?_⟩
  · simp only [hybrid_intersection]
    ring
  · simp only [point_in_zone_intersection, pointConfidenceSpec, keyPointsInside]
    cases hpc : get_palm_center (some pts) with
    | none =>
      simp [hpc, fingertipMarkers_length]
    | some c =>
      by_cases hcc : rect.contains_point c
      · simp [hpc, hcc, fingertipMarkers_length, add_comm]
      · simp [hpc, hcc, fingertipMarkers_length]
  · simp [hybrid_intersection]

/-! ## C4 — at-most-once counting of duplicate gesture events -/

theorem genericPickKey_ne_pickKey (h z : String) (t : ℚ) :
    eventKeyGeneric ⟨.pick_gesture_detected, h, z, t⟩ ≠ pickKey h z := by
  intro he
  have hlen := congrArg String.length he
  simp only [eventKeyGeneric, pickKey, EventType.str, String.length_append] at hlen
  have h21 : ("pick_gesture_detected" : String).length = 21 := rfl
  have h13 : ("pick_gesture_" : String).length = 13 := rfl
  have h1 : ("_" : String).length = 1 := rfl
  rw [h21, h13, h1] at hlen
  omega

theorem genericDropKey_ne_dropKey (h z : String) (t : ℚ) :
    eventKeyGeneric ⟨.drop_gesture_detected, h, z, t⟩ ≠ dropKey h z := by
  intro he
  have hlen := congrArg String.length he
  simp only [eventKeyGeneric, dropKey, EventType.str, String.length_append] at hlen
  have h21 : ("drop_gesture_detected" : String).length = 21 := rfl
  have h13 : ("drop_gesture_" : String).length = 13 := rfl
  have h1 : ("_" : String).length = 1 := rfl
  rw [h21, h13, h1] at hlen
  omega

/-- One hundred dedupe keys already recorded in an earlier part of the
session: the processed-events set sits exactly at its capacity. -/
def fullSet : List String := (List.range 100).map (fun i => "k" ++ toString i)

/-- Session at the eviction boundary: `left_0` holds a zone-manager pick
and `fullSet` fills the dedupe set. -/
def zmFull : ZMState :=
  { initZM with active_picks := [("left_0", ("pick_000", 0))],
                processed_events := fullSet }

/-- An admissible resolution of the unspecified CPython set-enumeration
order: the freshly inserted key comes last, so `[-100:]` drops it.  At
the one point where the counterexample triggers the cleanup it returns
100 of the 101 keys of its input, as the source does. -/
def dropNewest : List String → List String := fun l => l.take 100

/-- C4 counterexample: with the dedupe set at its 100-entry cap, the
cleanup after the first event rebuilds the set from an enumeration that
loses the just-recorded `pick_gesture_left_0_pick_000` key, and the
*identical* second event of the same batch is counted again:
`total_picks` rises by 2, not 1. -/
theorem duplicate_pick_counted_twice_at_cap_cex :
    zmFull.processed_events.length = 100 ∧
    dropNewest (fullSet ++ [pickKey "left_0" "pick_000"]) = fullSet ∧
    (process_interaction_events dropNewest zmFull
      [⟨.pick_gesture_detected, "left_0", "pick_000", 1⟩,
       ⟨.pick_gesture_detected, "left_0", "pick_000", 1⟩]).total_picks
      = zmFull.total_picks + 2 := by
  decide

/-- C4 amended: duplicate gesture suppression is guaranteed only below
the dedupe set's capacity.  Against a state whose occurrence is not yet
counted (the gesture dedupe keys are fresh; the generic per-event keys,
never inserted by the code, likewise; for drops the hand holds an
active pick) *and* whose processed-events set holds at most 99 keys —
so the capacity cleanup, whose surviving keys are an unspecified CPython
set-enumeration choice, cannot fire inside the batch — a batch of two
`pick_gesture_detected` events with identical hand and zone bumps
`total_picks` by exactly 1 (the second event is ignored via the key
`pick_gesture_{hand}_{zone}`), and likewise a duplicate
`drop_gesture_detected` batch bumps `total_drops` by exactly 1, for
every eviction choice. -/
theorem process_interaction_events_dedupes
    (evict : List String → List String) (s : ZMState) (h z : String)
    (t1 t2 : ℚ)
    (hlen : s.processed_events.length ≤ 99)
    (hg1 : eventKeyGeneric ⟨.pick_gesture_detected, h, z, t1⟩ ∉ s.processed_events)
    (hg2 : eventKeyGeneric ⟨.pick_gesture_detected, h, z, t2⟩ ∉ s.processed_events)
    (hpk : pickKey h z ∉ s.processed_events)
    (hd1 : eventKeyGeneric ⟨.drop_gesture_detected, h, z, t1⟩ ∉ s.processed_events)
    (hd2 : eventKeyGeneric ⟨.drop_gesture_detected, h, z, t2⟩ ∉ s.processed_events)
    (hdk : dropKey h z ∉ s.processed_events)
    (ha : (s.active_picks.lookup h).isSome = true) :
    (process_interaction_events evict s
      [⟨.pick_gesture_detected, h, z, t1⟩,
       ⟨.pick_gesture_detected, h, z, t2⟩]).total_picks = s.total_picks + 1 ∧
    (process_interaction_events evict s
      [⟨.drop_gesture_detected, h, z, t1⟩,
       ⟨.drop_gesture_detected, h, z, t2⟩]).total_drops = s.total_drops + 1 := by
  constructor
  · have hclean : cleanupProcessed evict (s.processed_events ++ [pickKey h z])
        = s.processed_events ++ [pickKey h z] := by
      unfold cleanupProcessed
      rw [if_neg]
      simp only [List.length_append, List.length_singleton]
      omega
    have step1 : process_one evict s ⟨.pick_gesture_detected, h, z, t1⟩ =
        { s with
            pick_events := s.pick_events ++ [⟨.pick_gesture_detected, h, z, t1⟩],
            total_picks := s.total_picks + 1,
            active_picks := dictInsert s.active_picks h (z, t1),
            processed_events := s.processed_events ++ [pickKey h z] } := by
      simp [process_one, hg1, hpk, addKey, hclean]
    have mem_pk : pickKey h z ∈
        (process_one evict s ⟨.pick_gesture_detected, h, z, t1⟩).processed_events := by
      rw [step1]
      exact List.mem_append_right _ (List.mem_singleton_self _)
    have nmem_g2 : eventKeyGeneric ⟨.pick_gesture_detected, h, z, t2⟩ ∉
        (process_one evict s ⟨.pick_gesture_detected, h, z, t1⟩).processed_events := by
      rw [step1]
      intro hmem
      rcases List.mem_append.mp hmem with hm | hm
      · exact hg2 hm
      · exact genericPickKey_ne_pickKey h z t2 (List.mem_singleton.mp hm)
    have step2 : (process_one evict
        (process_one evict s ⟨.pick_gesture_detected, h, z, t1⟩)
        ⟨.pick_gesture_detected, h, z, t2⟩).total_picks =
        (process_one evict s ⟨.pick_gesture_detected, h, z, t1⟩).total_picks := by
      generalize process_one evict s ⟨.pick_gesture_detected, h, z, t1⟩ = s1
        at mem_pk nmem_g2 ⊢
      simp [process_one, nmem_g2, mem_pk]
    calc (process_interaction_events evict s
            [⟨.pick_gesture_detected, h, z, t1⟩,
             ⟨.pick_gesture_detected, h, z, t2⟩]).total_picks
        = (process_one evict
            (process_one evict s ⟨.pick_gesture_detected, h, z, t1⟩)
            ⟨.pick_gesture_detected, h, z, t2⟩).total_picks := rfl
      _ = (process_one evict s ⟨.pick_gesture_detected, h, z, t1⟩).total_picks :=
          step2
      _ = s.total_picks + 1 := by rw [step1]
  · have hclean : cleanupProcessed evict (s.processed_events ++ [dropKey h z])
        = s.processed_events ++ [dropKey h z] := by
      unfold cleanupProcessed
      rw [if_neg]
      simp only [List.length_append, List.length_singleton]
      omega
    have step1 : process_one evict s ⟨.drop_gesture_detected, h, z, t1⟩ =
        { s with
            drop_events := s.drop_events ++ [⟨.drop_gesture_detected, h, z, t1⟩],
            total_drops := s.total_drops + 1,
            active_picks := eraseKey s.active_picks h,
            processed_events := s.processed_events ++ [dropKey h z] } := by
      simp [process_one, hd1, hdk, ha, addKey, hclean]
    have mem_dk : dropKey h z ∈
        (process_one evict s ⟨.drop_gesture_detected, h, z, t1⟩).processed_events := by
      rw [step1]
      exact List.mem_append_right _ (List.mem_singleton_self _)
    have nmem_g2 : eventKeyGeneric ⟨.drop_gesture_detected, h, z, t2⟩ ∉
        (process_one evict s ⟨.drop_gesture_detected, h, z, t1⟩).processed_events := by
      rw [step1]
      intro hmem
      rcases List.mem_append.mp hmem with hm | hm
      · exact hd2 hm
      · exact genericDropKey_ne_dropKey h z t2 (List.mem_singleton.mp hm)
    have step2 : (process_one evict
        (process_one evict s ⟨.drop_gesture_detected, h, z, t1⟩)
        ⟨.drop_gesture_detected, h, z, t2⟩).total_drops =
        (process_one evict s ⟨.drop_gesture_detected, h, z, t1⟩).total_drops := by
      generalize process_one evict s ⟨.drop_gesture_detected, h, z, t1⟩ = s1
        at mem_dk nmem_g2 ⊢
      simp [process_one, nmem_g2, mem_dk]
    calc (process_interaction_events evict s
            [⟨.drop_gesture_detected, h, z, t1⟩,
             ⟨.drop_gesture_detected, h, z, t2⟩]).total_drops
        = (process_one evict
            (process_one evict s ⟨.drop_gesture_detected, h, z, t1⟩)
            ⟨.drop_gesture_detected, h, z, t2⟩).total_drops := rfl
      _ = (process_one evict s ⟨.drop_gesture_detected, h, z, t1⟩).total_drops :=
          step2
      _ = s.total_drops + 1 := by rw [step1]

/-- A fresh session in which `left_0` holds a zone-manager pick. -/
def zmWit : ZMState :=
  { initZM with active_picks := [("left_0", ("pick_000", 0))] }

/-- C4 amended witness: the duplicate pick batch and the duplicate drop
batch against the fresh fixture session, under the same eviction choice
the counterexample uses. -/
theorem process_interaction_events_dedupes_witness :
    (process_interaction_events dropNewest zmWit
      [⟨.pick_gesture_detected, "left_0", "pick_000", 1⟩,
       ⟨.pick_gesture_detected, "left_0", "pick_000", 2⟩]).total_picks
      = zmWit.total_picks + 1 ∧
    (process_interaction_events dropNewest zmWit
      [⟨.drop_gesture_detected, "left_0", "pick_000", 1⟩,
       ⟨.drop_gesture_detected, "left_0", "pick_000", 2⟩]).total_drops
      = zmWit.total_drops + 1 :=
  process_interaction_events_dedupes dropNewest zmWit "left_0" "pick_000" 1 2
    (by decide) (by decide) (by decide) (by decide) (by decide) (by decide)
    (by decide) (by decide)

end NextSight
